import Mathlib

/-!
Verification of the sandbox path-resolution core of A3S Tools-Core
(`src/sandbox.rs`).

The embedding models file-system paths as a flag saying whether the path is
absolute together with the list of its components (mirroring Rust's
`std::path::Path` component view), and the file system as an abstract
canonicalization function `Path → Option Path` (mirroring
`std::fs::canonicalize`, which succeeds exactly when the target exists and
returns the fully resolved path).  The two entry points `resolve_path` and
`resolve_path_for_write` are translated statement-by-statement from the
source.
-/

namespace Sandbox

/-- A file-system path: whether it is absolute, and its components in order.
Mirrors Rust's `std::path::Path`, whose component iterator yields a root
marker for absolute paths followed by the named components. -/
structure Path where
  absolute : Bool
  components : List String
deriving DecidableEq, Repr

/-- Rust `Path::join`: joining an absolute path replaces the base, joining a
relative path appends its components. -/
def Path.join (base p : Path) : Path :=
  if p.absolute then p else ⟨base.absolute, base.components ++ p.components⟩

/-- Rust `Path::parent`: drops the last component; `None` for the file-system
root `/` and for the empty path. -/
def Path.parent (p : Path) : Option Path :=
  if p.components.isEmpty then none
  else some ⟨p.absolute, p.components.dropLast⟩

/-- The component list as Rust's `Components` iterator yields it: a root
marker (`none`) first when the path is absolute, then the named components. -/
def Path.compList (p : Path) : List (Option String) :=
  (if p.absolute then [none] else []) ++ p.components.map some

/-- Rust `Path::starts_with`: component-wise prefix test over the component
iterator (so `/workspaceX` does not start with `/workspace`, and an absolute
path never starts with a relative one). -/
def Path.startsWith (p base : Path) : Bool :=
  base.compList.isPrefixOf p.compList

/-- The error variants of `ToolError` (src/error.rs) that the sandbox module
constructs.  The source stores the display string of the candidate path; here
the candidate path itself is stored. -/
inductive ToolError where
  | PathNotFound (path : Path)
  | PathOutsideWorkspace (path : Path)
deriving DecidableEq, Repr

/-- The file system as seen by the resolver: `canonicalize` mirrors
`std::fs::canonicalize`, returning `some` of the fully resolved path (all
symlinks followed, dot segments collapsed) exactly when the target exists,
and `none` when it does not. -/
structure FS where
  canonicalize : Path → Option Path

/-- `resolve_path` (src/sandbox.rs, lines 80-105): join the candidate onto
the workspace unless absolute, canonicalize it (failure is `PathNotFound`),
canonicalize the workspace with a fall-back to the literal workspace, and
reject with `PathOutsideWorkspace` unless the canonical candidate starts
with the canonical workspace. -/
def resolve_path (fs : FS) (workspace : Path) (path : Path) :
    Except ToolError Path :=
  let resolved := if path.absolute then path else workspace.join path
  match fs.canonicalize resolved with
  | none => .error (.PathNotFound path)
  | some canonical =>
    let canonical_workspace := (fs.canonicalize workspace).getD workspace
    if Path.startsWith canonical canonical_workspace = false then
      .error (.PathOutsideWorkspace path)
    else
      .ok canonical

/-- `resolve_path_for_write` (src/sandbox.rs, lines 147-176): join the
candidate onto the workspace unless absolute, canonicalize the workspace
with a fall-back to the literal workspace, and when the joined path has a
parent, canonicalize that parent with a fall-back to the literal parent and
reject with `PathOutsideWorkspace` when it is neither equal to nor starts
with the canonical workspace; on success return the joined lexical path. -/
def resolve_path_for_write (fs : FS) (workspace : Path) (path : Path) :
    Except ToolError Path :=
  let resolved := if path.absolute then path else workspace.join path
  let canonical_workspace := (fs.canonicalize workspace).getD workspace
  match resolved.parent with
  | some parent =>
    let canonical_parent := (fs.canonicalize parent).getD parent
    if canonical_parent ≠ canonical_workspace ∧
        Path.startsWith canonical_parent canonical_workspace = false then
      .error (.PathOutsideWorkspace path)
    else
      .ok resolved
  | none => .ok resolved

/-- The joined lexical path both entry points operate on: the candidate
itself when absolute, otherwise the workspace joined with the candidate. -/
def joinedPath (workspace path : Path) : Path :=
  if path.absolute then path else workspace.join path

/-- The nearest existing ancestor of a path, as the spec describes it: walk
upward from the immediate parent until a directory that exists (its
canonicalization succeeds) is found, or run out of ancestors.  Fuelled by
the component count, which bounds the length of the ancestor chain. -/
def nearestExistingAncestorAux (fs : FS) : Nat → Path → Option Path
  | 0, _ => none
  | fuel + 1, p =>
    match p.parent with
    | none => none
    | some q =>
      if (fs.canonicalize q).isSome then some q
      else nearestExistingAncestorAux fs fuel q

/-- Entry point for the nearest-existing-ancestor walk of the spec. -/
def nearestExistingAncestor (fs : FS) (p : Path) : Option Path :=
  nearestExistingAncestorAux fs p.components.length p

/-- A small concrete file system used to instantiate the theorems: the
workspace `/ws` containing `/ws/f.txt`, and `/etc/passwd` outside it.  All
existing entries are their own canonical form (no symlinks). -/
def fsDemo : FS where
  canonicalize p :=
    if p = ⟨true, []⟩ then some ⟨true, []⟩
    else if p = ⟨true, ["ws"]⟩ then some ⟨true, ["ws"]⟩
    else if p = ⟨true, ["ws", "f.txt"]⟩ then some ⟨true, ["ws", "f.txt"]⟩
    else if p = ⟨true, ["etc"]⟩ then some ⟨true, ["etc"]⟩
    else if p = ⟨true, ["etc", "passwd"]⟩ then some ⟨true, ["etc", "passwd"]⟩
    else none

/-- A concrete file system in which `/ws/link` is a symlink to `/etc`:
canonicalizing `/ws/link` yields `/etc`, while `/ws/link/a` does not exist
(`/etc/a` is absent), so canonicalizing it fails. -/
def fsC2 : FS where
  canonicalize p :=
    if p = ⟨true, []⟩ then some ⟨true, []⟩
    else if p = ⟨true, ["ws"]⟩ then some ⟨true, ["ws"]⟩
    else if p = ⟨true, ["ws", "link"]⟩ then some ⟨true, ["etc"]⟩
    else if p = ⟨true, ["etc"]⟩ then some ⟨true, ["etc"]⟩
    else none

/-- A concrete file system in which the workspace root `/var/ws` lies behind
a symlinked directory (`/var` resolves to `/private/var`), so the canonical
workspace is `/private/var/ws`, and `/var/ws/out` does not exist yet. -/
def fsC3 : FS where
  canonicalize p :=
    if p = ⟨true, []⟩ then some ⟨true, []⟩
    else if p = ⟨true, ["var"]⟩ then some ⟨true, ["private", "var"]⟩
    else if p = ⟨true, ["var", "ws"]⟩ then some ⟨true, ["private", "var", "ws"]⟩
    else if p = ⟨true, ["private"]⟩ then some ⟨true, ["private"]⟩
    else if p = ⟨true, ["private", "var"]⟩ then some ⟨true, ["private", "var"]⟩
    else if p = ⟨true, ["private", "var", "ws"]⟩ then
      some ⟨true, ["private", "var", "ws"]⟩
    else none

/-- A file system on which every canonicalization fails (the workspace root
is a dangling reference). -/
def fsNone : FS where
  canonicalize _ := none

/-- A helper: the Boolean component-wise test of the source is the
propositional list-prefix relation on component iterators. -/
lemma startsWith_iff_compList (p base : Path) :
    Path.startsWith p base = true ↔ base.compList <+: p.compList :=
  List.isPrefixOf_iff_prefix

/-- A helper: mapping `some` over component lists preserves and reflects
the prefix relation. -/
lemma map_some_prefix_iff (l₁ l₂ : List String) :
    l₁.map some <+: l₂.map some ↔ l₁ <+: l₂ := by
  constructor
  · intro h
    have h2 := h.filterMap id
    simpa using h2
  · intro h
    exact h.map some

/-- A helper: a component list starting with the root marker is never a
prefix of a relative path's component list. -/
lemma not_root_prefix_map_some (t : List (Option String)) (l : List String) :
    ¬ (none :: t <+: l.map some) := by
  intro h
  cases l with
  | nil => simp at h
  | cons a as =>
    rw [List.map_cons, List.cons_prefix_cons] at h
    exact absurd h.1 (by simp)

/-- A helper: for an absolute base, the component-iterator prefix relation
says the candidate is absolute and the base's components are a prefix of
the candidate's. -/
lemma compList_prefix_iff (p base : Path) (hb : base.absolute = true) :
    base.compList <+: p.compList ↔
      (p.absolute = true ∧ base.components <+: p.components) := by
  unfold Path.compList
  rw [hb]
  cases hp : p.absolute with
  | true =>
    simp [List.cons_prefix_cons, map_some_prefix_iff]
  | false =>
    simp only [List.nil_append, List.cons_append, Bool.false_eq_true,
      false_and, iff_false, reduceIte]
    exact not_root_prefix_map_some _ _

/-- C1: for every workspace root `w` and candidate path `p`, if
`resolve_path w p` succeeds then the returned path is equal to, or a
component-wise descendant of, the canonical form of `w` (here `cw`). -/
theorem resolve_path_stays_within_canonical_workspace
    (fs : FS) (workspace path cw r : Path)
    (hcw : fs.canonicalize workspace = some cw)
    (hok : resolve_path fs workspace path = .ok r) :
    Path.startsWith r cw = true := by
  simp only [resolve_path] at hok
  rw [hcw] at hok
  cases h : fs.canonicalize (if path.absolute then path else workspace.join path) with
  | none => simp [h] at hok
  | some c =>
    simp only [h, Option.getD_some] at hok
    split at hok
    · exact absurd hok (by simp)
    · rename_i hs
      simp only [Except.ok.injEq] at hok
      subst hok
      simpa using hs

/-- C1 witness: on the concrete file system `fsDemo` with workspace `/ws`,
resolving the existing file `f.txt` succeeds and the result `/ws/f.txt`
starts with the canonical workspace `/ws`. -/
theorem resolve_path_stays_within_canonical_workspace_witness :
    Path.startsWith ⟨true, ["ws", "f.txt"]⟩ ⟨true, ["ws"]⟩ = true :=
  resolve_path_stays_within_canonical_workspace fsDemo ⟨true, ["ws"]⟩
    ⟨false, ["f.txt"]⟩ ⟨true, ["ws"]⟩ ⟨true, ["ws", "f.txt"]⟩ rfl rfl

/-- C4: the boundary check used by both entry points (`Path.startsWith`,
the embedding of Rust `Path::starts_with` applied to the canonical
candidate and the canonical workspace root) reports containment iff the
candidate equals the root or has it as a proper component-wise prefix; in
particular the root itself is contained, while `/workspaceX` and
`/workspace-evil` are not contained in `/workspace` despite being string
prefix matches. -/
theorem boundary_check_iff_componentwise (p base : Path)
    (hb : base.absolute = true) :
    (Path.startsWith p base = true ↔
      p = base ∨ (p.absolute = true ∧ base.components <+: p.components ∧
        base.components ≠ p.components)) ∧
    Path.startsWith base base = true ∧
    Path.startsWith ⟨true, ["workspaceX"]⟩ ⟨true, ["workspace"]⟩ = false ∧
    Path.startsWith ⟨true, ["workspace-evil"]⟩ ⟨true, ["workspace"]⟩ = false := by
  refine ⟨?_, (startsWith_iff_compList base base).mpr (List.prefix_refl _),
    by decide, by decide⟩
  rw [startsWith_iff_compList, compList_prefix_iff p base hb]
  constructor
  · rintro ⟨ha, hpre⟩
    by_cases he : base.components = p.components
    · refine Or.inl ?_
      cases p; cases base
      simp_all
    · exact Or.inr ⟨ha, hpre, he⟩
  · rintro (h | ⟨ha, hpre, hne⟩)
    · subst h
      exact ⟨hb, List.prefix_refl _⟩
    · exact ⟨ha, hpre⟩

/-- C4 witness: at the concrete absolute root `/ws`, the check reports the
strict descendant `/ws/sub` as contained. -/
theorem boundary_check_iff_componentwise_witness :
    Path.startsWith ⟨true, ["ws", "sub"]⟩ ⟨true, ["ws"]⟩ = true :=
  (boundary_check_iff_componentwise ⟨true, ["ws", "sub"]⟩ ⟨true, ["ws"]⟩ rfl).1.mpr
    (Or.inr ⟨rfl, ⟨["sub"], rfl⟩, by simp⟩)

/-- C2 is violated by the code: on `fsC2` the workspace `/ws` is canonical,
the joined path `/ws/link/a/b.txt` has the existing ancestor `/ws/link`
(its nearest existing ancestor) which is a symlink canonicalizing to
`/etc`, outside the workspace — yet `resolve_path_for_write` succeeds,
because the non-existent immediate parent `/ws/link/a` falls back to its
literal form, which lexically starts with `/ws`. -/
theorem resolve_path_for_write_escape_through_symlinked_ancestor :
    fsC2.canonicalize ⟨true, ["ws"]⟩ = some ⟨true, ["ws"]⟩ ∧
    nearestExistingAncestor fsC2
        (joinedPath ⟨true, ["ws"]⟩ ⟨false, ["link", "a", "b.txt"]⟩) =
      some ⟨true, ["ws", "link"]⟩ ∧
    fsC2.canonicalize ⟨true, ["ws", "link"]⟩ = some ⟨true, ["etc"]⟩ ∧
    Path.startsWith ⟨true, ["etc"]⟩ ⟨true, ["ws"]⟩ = false ∧
    resolve_path_for_write fsC2 ⟨true, ["ws"]⟩ ⟨false, ["link", "a", "b.txt"]⟩ =
      .ok ⟨true, ["ws", "link", "a", "b.txt"]⟩ :=
  ⟨rfl, rfl, rfl, rfl, rfl⟩

/-- C3 is violated by the code: on `fsC3` the workspace root `/var/ws`
canonicalizes to `/private/var/ws`, and the joined path
`/var/ws/out/new.txt` has nearest existing ancestor `/var/ws`, which
canonicalizes to `/private/var/ws` — equal to (hence inside) the canonical
workspace — yet `resolve_path_for_write` rejects with
`PathOutsideWorkspace`, because the non-existent immediate parent
`/var/ws/out` falls back to its literal form, which does not start with
the canonical workspace. -/
theorem resolve_path_for_write_rejects_inside_nearest_ancestor :
    fsC3.canonicalize ⟨true, ["var", "ws"]⟩ = some ⟨true, ["private", "var", "ws"]⟩ ∧
    nearestExistingAncestor fsC3
        (joinedPath ⟨true, ["var", "ws"]⟩ ⟨false, ["out", "new.txt"]⟩) =
      some ⟨true, ["var", "ws"]⟩ ∧
    Path.startsWith ⟨true, ["private", "var", "ws"]⟩
        ⟨true, ["private", "var", "ws"]⟩ = true ∧
    resolve_path_for_write fsC3 ⟨true, ["var", "ws"]⟩ ⟨false, ["out", "new.txt"]⟩ =
      .error (.PathOutsideWorkspace ⟨false, ["out", "new.txt"]⟩) :=
  ⟨rfl, rfl, rfl, rfl⟩

/-- C5: with a canonicalizable workspace, `resolve_path` returns
`PathNotFound` exactly when the joined target does not exist (its
canonicalization fails), and `PathOutsideWorkspace` exactly when the
target exists but its canonical form falls outside the canonical
workspace; the two outcomes are characterized by disjoint conditions and
neither is reported in place of the other. -/
theorem resolve_path_error_taxonomy (fs : FS) (w p cw : Path)
    (hcw : fs.canonicalize w = some cw) :
    (resolve_path fs w p = .error (.PathNotFound p) ↔
      fs.canonicalize (joinedPath w p) = none) ∧
    (resolve_path fs w p = .error (.PathOutsideWorkspace p) ↔
      ∃ c, fs.canonicalize (joinedPath w p) = some c ∧
        Path.startsWith c cw = false) := by
  simp only [resolve_path, joinedPath]
  rw [hcw]
  cases h : fs.canonicalize (if p.absolute then p else w.join p) with
  | none => simp [h]
  | some c =>
    simp only [h, Option.getD_some]
    split
    · rename_i hs
      constructor
      · simp
      · constructor
        · intro _
          exact ⟨c, rfl, hs⟩
        · intro _
          rfl
    · rename_i hs
      constructor
      · simp
      · constructor
        · intro hE
          exact absurd hE (by simp)
        · rintro ⟨c2, hc2, hs2⟩
          cases hc2
          exact absurd hs2 hs

/-- C5 witness: on `fsDemo` with workspace `/ws`, the existing out-of-bounds
target `/etc/passwd` yields `PathOutsideWorkspace` and the non-existent
target `missing.txt` yields `PathNotFound`. -/
theorem resolve_path_error_taxonomy_witness :
    resolve_path fsDemo ⟨true, ["ws"]⟩ ⟨true, ["etc", "passwd"]⟩ =
      .error (.PathOutsideWorkspace ⟨true, ["etc", "passwd"]⟩) ∧
    resolve_path fsDemo ⟨true, ["ws"]⟩ ⟨false, ["missing.txt"]⟩ =
      .error (.PathNotFound ⟨false, ["missing.txt"]⟩) :=
  ⟨(resolve_path_error_taxonomy fsDemo ⟨true, ["ws"]⟩ ⟨true, ["etc", "passwd"]⟩
      ⟨true, ["ws"]⟩ rfl).2.mpr ⟨⟨true, ["etc", "passwd"]⟩, rfl, rfl⟩,
   (resolve_path_error_taxonomy fsDemo ⟨true, ["ws"]⟩ ⟨false, ["missing.txt"]⟩
      ⟨true, ["ws"]⟩ rfl).1.mpr rfl⟩

/-- C6: whenever `resolve_path_for_write` succeeds, the value it returns is
exactly the joined lexical path (the candidate itself if absolute, else the
workspace joined with the candidate), with no canonicalization applied. -/
theorem resolve_path_for_write_returns_joined_lexical (fs : FS) (w p r : Path)
    (hok : resolve_path_for_write fs w p = .ok r) : r = joinedPath w p := by
  simp only [resolve_path_for_write] at hok
  simp only [joinedPath]
  cases h : (if p.absolute then p else w.join p).parent with
  | none =>
    simp only [h] at hok
    exact (Except.ok.injEq _ _ ▸ hok).symm
  | some parent =>
    simp only [h] at hok
    split at hok
    · exact absurd hok (by simp)
    · simp only [Except.ok.injEq] at hok
      exact hok.symm

/-- C6 witness: on `fsDemo` with workspace `/ws`, writing the new file
`new.txt` succeeds and returns exactly the joined lexical path
`/ws/new.txt`. -/
theorem resolve_path_for_write_returns_joined_lexical_witness :
    resolve_path_for_write fsDemo ⟨true, ["ws"]⟩ ⟨false, ["new.txt"]⟩ =
      .ok ⟨true, ["ws", "new.txt"]⟩ ∧
    (⟨true, ["ws", "new.txt"]⟩ : Path) =
      joinedPath ⟨true, ["ws"]⟩ ⟨false, ["new.txt"]⟩ :=
  ⟨rfl, resolve_path_for_write_returns_joined_lexical fsDemo ⟨true, ["ws"]⟩
    ⟨false, ["new.txt"]⟩ ⟨true, ["ws", "new.txt"]⟩ rfl⟩

/-- C7: when canonicalization of the workspace root fails, both entry
points fall back to comparing against the literal workspace root instead
of returning an error: `resolve_path` still resolves an existing target
and checks it against the literal root, and `resolve_path_for_write`
still checks the (possibly fallen-back) parent against the literal root —
the root's canonicalization failure alone never produces a failure. -/
theorem workspace_canonicalization_failure_falls_back_to_literal
    (fs : FS) (w p : Path) (h : fs.canonicalize w = none) :
    (∀ c, fs.canonicalize (joinedPath w p) = some c →
      resolve_path fs w p =
        if Path.startsWith c w = false then .error (.PathOutsideWorkspace p)
        else .ok c) ∧
    (∀ parent, (joinedPath w p).parent = some parent →
      resolve_path_for_write fs w p =
        if (fs.canonicalize parent).getD parent ≠ w ∧
            Path.startsWith ((fs.canonicalize parent).getD parent) w = false
          then .error (.PathOutsideWorkspace p)
        else .ok (joinedPath w p)) := by
  constructor
  · intro c hc
    simp only [resolve_path, joinedPath] at *
    simp only [h, hc, Option.getD_none]
  · intro parent hparent
    simp only [resolve_path_for_write, joinedPath] at *
    simp only [h, hparent, Option.getD_none]

/-- C7 witness: on the file system where nothing canonicalizes (the
workspace root `/ws` is dangling), writing `new.txt` still succeeds: the
parent `/ws` falls back to its literal form, which equals the literal
workspace root. -/
theorem workspace_canonicalization_failure_falls_back_to_literal_witness :
    fsNone.canonicalize ⟨true, ["ws"]⟩ = none ∧
    resolve_path_for_write fsNone ⟨true, ["ws"]⟩ ⟨false, ["new.txt"]⟩ =
      .ok ⟨true, ["ws", "new.txt"]⟩ := by
  refine ⟨rfl, ?_⟩
  have h2 := (workspace_canonicalization_failure_falls_back_to_literal
    fsNone ⟨true, ["ws"]⟩ ⟨false, ["new.txt"]⟩ rfl).2 ⟨true, ["ws"]⟩ rfl
  rw [h2]
  rfl

/-- C8: resolution is deterministic in the workspace, the candidate and the
file-system snapshot: two file systems with identical canonicalization
behavior give identical results for both entry points (in particular, two
calls on the same snapshot agree). -/
theorem resolution_deterministic (fs1 fs2 : FS) (w p : Path)
    (h : ∀ q, fs1.canonicalize q = fs2.canonicalize q) :
    resolve_path fs1 w p = resolve_path fs2 w p ∧
    resolve_path_for_write fs1 w p = resolve_path_for_write fs2 w p := by
  have hfs : fs1 = fs2 := by
    cases fs1
    cases fs2
    congr 1
    exact funext h
  subst hfs
  exact ⟨rfl, rfl⟩

/-- C8 witness: two calls of each entry point on `fsDemo` with workspace
`/ws` and candidate `f.txt` agree. -/
theorem resolution_deterministic_witness :
    resolve_path fsDemo ⟨true, ["ws"]⟩ ⟨false, ["f.txt"]⟩ =
      resolve_path fsDemo ⟨true, ["ws"]⟩ ⟨false, ["f.txt"]⟩ ∧
    resolve_path_for_write fsDemo ⟨true, ["ws"]⟩ ⟨false, ["f.txt"]⟩ =
      resolve_path_for_write fsDemo ⟨true, ["ws"]⟩ ⟨false, ["f.txt"]⟩ :=
  resolution_deterministic fsDemo fsDemo ⟨true, ["ws"]⟩ ⟨false, ["f.txt"]⟩
    (fun _ => rfl)

/-- C9: when the joined path has no parent (it is the file-system root),
`resolve_path_for_write` skips the boundary check entirely and succeeds
with that path, on every file system and for every workspace root. -/
theorem resolve_path_for_write_no_parent_skips_check (fs : FS) (w p : Path)
    (h : (joinedPath w p).parent = none) :
    resolve_path_for_write fs w p = .ok (joinedPath w p) := by
  simp only [resolve_path_for_write, joinedPath] at *
  simp only [h]

/-- C9 witness: the absolute candidate `/` (the file-system root) is
accepted by `resolve_path_for_write` on `fsDemo` for the workspace `/ws`,
with no boundary check. -/
theorem resolve_path_for_write_no_parent_skips_check_witness :
    resolve_path_for_write fsDemo ⟨true, ["ws"]⟩ ⟨true, []⟩ =
      .ok (joinedPath ⟨true, ["ws"]⟩ ⟨true, []⟩) :=
  resolve_path_for_write_no_parent_skips_check fsDemo ⟨true, ["ws"]⟩
    ⟨true, []⟩ rfl

/-- C10: `resolve_path` checks existence before the boundary: whenever
canonicalization of the joined target fails, the result is `PathNotFound`
— never `PathOutsideWorkspace` — even for candidates lying entirely
outside the workspace. -/
theorem resolve_path_not_found_before_boundary (fs : FS) (w p : Path)
    (h : fs.canonicalize (joinedPath w p) = none) :
    resolve_path fs w p = .error (.PathNotFound p) ∧
    resolve_path fs w p ≠ .error (.PathOutsideWorkspace p) := by
  simp only [resolve_path, joinedPath] at *
  simp [h]

/-- C10 witness: the non-existent target `/etc/shadow`, entirely outside
the workspace `/ws`, yields `PathNotFound` and not
`PathOutsideWorkspace`. -/
theorem resolve_path_not_found_before_boundary_witness :
    resolve_path fsDemo ⟨true, ["ws"]⟩ ⟨true, ["etc", "shadow"]⟩ =
      .error (.PathNotFound ⟨true, ["etc", "shadow"]⟩) ∧
    resolve_path fsDemo ⟨true, ["ws"]⟩ ⟨true, ["etc", "shadow"]⟩ ≠
      .error (.PathOutsideWorkspace ⟨true, ["etc", "shadow"]⟩) :=
  resolve_path_not_found_before_boundary fsDemo ⟨true, ["ws"]⟩
    ⟨true, ["etc", "shadow"]⟩ rfl

end Sandbox
